import Mathlib

/-!
Verification development for the NLWeb MCP bridge
(src/code/python/chatbot_interface_streamable_http.py).

The bridge forwards tool/prompt discovery and invocation requests to a remote
HTTP JSON-RPC backend and enforces a serialized-size budget on tool output.
This file gives a shallow embedding of the bridge's pure core:

* `JValue` models the JSON values exchanged with the backend (the subset the
  bridge manipulates: null, booleans, integers, strings, arrays, objects;
  Python dicts preserve insertion order, so objects are ordered key/value
  lists with distinct keys).
* `dumps` models Python's `json.dumps` with default separators and
  `ensure_ascii=True`; `dumpsInd` models `json.dumps(v, indent=2)`.
* `truncate_preserving_early_entries` models the truncation algorithm.
* `forward_to_nlweb` models the forwarder's outcome normalization, with the
  HTTP/network boundary abstracted as a `BackendResponse` value.
* `list_tools`, `list_prompts`, `call_tool` model the handlers, with an
  explicit `HandlerOutcome.exn` constructor for a Python exception that the
  handler body does not catch (and which therefore escapes to the transport).
-/

namespace NLWeb

/-- A JSON value as manipulated by the bridge. Objects keep insertion order,
matching Python dict semantics; `null` models Python `None`. JSON floats are
not modelled (no code path of the bridge that we verify produces one). -/
inductive JValue where
  | null : JValue
  | bool : Bool → JValue
  | int : Int → JValue
  | str : String → JValue
  | arr : List JValue → JValue
  | obj : List (String × JValue) → JValue

/-- Lower-case hex digit, as produced by Python's json encoder in escapes. -/
def hexDigit (n : Nat) : Char :=
  if n < 10 then Char.ofNat (48 + n) else Char.ofNat (87 + n)

/-- Four lower-case hex digits, as in a \uXXXX escape. -/
def hex4 (n : Nat) : String :=
  String.mk [hexDigit (n / 4096 % 16), hexDigit (n / 256 % 16),
             hexDigit (n / 16 % 16), hexDigit (n % 16)]

/-- How Python's json encoder (ensure_ascii=True, the default used by the
bridge) renders one character of a string: short escapes for the usual
control characters, quote and backslash; \uXXXX (with a surrogate pair above
the BMP) for other control and non-ASCII characters; the character itself in
the printable-ASCII range. -/
def escapeChar (c : Char) : String :=
  if c = '"' then "\\\""
  else if c = '\\' then "\\\\"
  else if c = '\n' then "\\n"
  else if c = '\r' then "\\r"
  else if c = '\t' then "\\t"
  else if c = '\x08' then "\\b"
  else if c = '\x0c' then "\\f"
  else if 0x20 ≤ c.toNat ∧ c.toNat ≤ 0x7e then String.singleton c
  else if c.toNat < 0x10000 then "\\u" ++ hex4 c.toNat
  else
    "\\u" ++ hex4 (0xd800 + (c.toNat - 0x10000) / 0x400) ++
    "\\u" ++ hex4 (0xdc00 + (c.toNat - 0x10000) % 0x400)

/-- The escaped body of a JSON string: each character escaped, concatenated. -/
def escBody : List Char → String
  | [] => ""
  | c :: cs => escapeChar c ++ escBody cs

/-- `json.dumps` of a Python string: quoted escaped body. -/
def dumpString (s : String) : String :=
  "\"" ++ escBody s.data ++ "\""

mutual

/-- `json.dumps(v)` with the default separators used by the bridge:
items joined by a comma and a space, keys and values joined by a colon and a
space. -/
def dumps : JValue → String
  | .null => "null"
  | .bool b => if b then "true" else "false"
  | .int n => toString n
  | .str s => dumpString s
  | .arr xs => "[" ++ dumpsListBody xs ++ "]"
  | .obj kvs => "\x7b" ++ dumpsObjBody kvs ++ "\x7d"

/-- Body of a serialized JSON array: elements joined by a comma and a space. -/
def dumpsListBody : List JValue → String
  | [] => ""
  | [x] => dumps x
  | x :: y :: xs => dumps x ++ ", " ++ dumpsListBody (y :: xs)

/-- Body of a serialized JSON object: entries joined by a comma and a space. -/
def dumpsObjBody : List (String × JValue) → String
  | [] => ""
  | [(k, v)] => dumpString k ++ ": " ++ dumps v
  | (k, v) :: p :: kvs => dumpString k ++ ": " ++ dumps v ++ ", " ++ dumpsObjBody (p :: kvs)

end

/-- A run of `n` spaces, for the indented serializer. -/
def spaces (n : Nat) : String :=
  String.mk (List.replicate n ' ')

mutual

/-- `json.dumps(v, indent=2)` at current indentation depth `d` (the handler
calls it at depth 0): each container element on its own line, two further
spaces per nesting level, item separator a comma followed by a newline and
the indent, key separator a colon and a space; empty containers stay on one
line. -/
def dumpsInd (d : Nat) : JValue → String
  | .null => "null"
  | .bool b => if b then "true" else "false"
  | .int n => toString n
  | .str s => dumpString s
  | .arr [] => "[]"
  | .arr (x :: xs) =>
      "[\n" ++ spaces (d + 2) ++ dumpsIndListBody (d + 2) (x :: xs) ++
      "\n" ++ spaces d ++ "]"
  | .obj [] => "\x7b\x7d"
  | .obj (p :: ps) =>
      "\x7b\n" ++ spaces (d + 2) ++ dumpsIndObjBody (d + 2) (p :: ps) ++
      "\n" ++ spaces d ++ "\x7d"

/-- Body of an indent-2 serialized array at depth `d`. -/
def dumpsIndListBody (d : Nat) : List JValue → String
  | [] => ""
  | [x] => dumpsInd d x
  | x :: y :: xs => dumpsInd d x ++ ",\n" ++ spaces d ++ dumpsIndListBody d (y :: xs)

/-- Body of an indent-2 serialized object at depth `d`. -/
def dumpsIndObjBody (d : Nat) : List (String × JValue) → String
  | [] => ""
  | [(k, v)] => dumpString k ++ ": " ++ dumpsInd d v
  | (k, v) :: p :: kvs =>
      dumpString k ++ ": " ++ dumpsInd d v ++ ",\n" ++ spaces d ++
      dumpsIndObjBody d (p :: kvs)

end

/-! ## Response truncation (truncate_preserving_early_entries) -/

/-- MAX_TOOL_OUTPUT_LENGTH: maximum characters for tool output. -/
def MAX_TOOL_OUTPUT_LENGTH : Nat := 40000

/-- The sentinel content item appended in place of dropped trailing items. -/
def sentinelItem : JValue :=
  .obj [("type", .str "text"), ("text", .str "... (truncated)")]

/-- The placeholder returned for inputs that are not a dict with a list-valued
"content" key. -/
def placeholderResponse : JValue :=
  .obj [("content", .arr [sentinelItem])]

/-- The loop's skip test: `isinstance(item, dict) and "text" in item`. -/
def isTextItem : JValue → Bool
  | .obj kvs => (List.lookup "text" kvs).isSome
  | _ => false

/-- The dict comprehension dropping the "text" entry of an item. -/
def removeTextField (kvs : List (String × JValue)) : List (String × JValue) :=
  kvs.filter (fun kv => kv.1 ≠ "text")

/-- `new_item = dict(item); new_item["text"] = t`: replacing the value of an
existing key keeps its position (Python dict update semantics). -/
def setTextField (kvs : List (String × JValue)) (t : String) : List (String × JValue) :=
  kvs.map (fun kv => if kv.1 = "text" then (kv.1, JValue.str t) else kv)

/-- Python string slicing `s[:stop]` for a possibly negative `stop`. -/
def pySliceTo (s : String) (stop : Int) : String :=
  if stop < 0 then String.mk (s.data.take (s.length - min s.length stop.natAbs))
  else String.mk (s.data.take stop.toNat)

/-- The body of the truncation loop. `out` is the accumulated output content
list. `none` models the TypeError Python raises when the first surviving item
overflows the budget and its "text" value is not a string (slicing it or
concatenating the marker fails); the caller of the truncator catches it. -/
def truncLoop (maxLen baseSize : Nat) : List JValue → List JValue → Option (List JValue)
  | [], out => some out
  | item :: rest, out =>
    if isTextItem item then
      if (dumps (.arr (out ++ [item]))).length ≤ maxLen then
        truncLoop maxLen baseSize rest (out ++ [item])
      else if out.isEmpty then
        match item with
        | .obj kvs =>
          match List.lookup "text" kvs with
          | some (.str t) =>
            let availableSpace : Int :=
              (maxLen : Int) - (baseSize : Int) -
                ((dumps (.obj (removeTextField kvs))).length : Int) - 20
            let truncatedText := pySliceTo t availableSpace ++ "... (truncated)"
            some (out ++ [.obj (setTextField kvs truncatedText)])
          | _ => none
        | _ => none
      else some (out ++ [sentinelItem])
    else truncLoop maxLen baseSize rest out

/-- The truncator. Returns `none` exactly when the Python function raises
(see `truncLoop`); every other path returns the truncated response value. -/
def truncate_preserving_early_entries (data : JValue) (maxLength : Nat) : Option JValue :=
  match data with
  | .obj kvs =>
    match List.lookup "content" kvs with
    | some (.arr items) =>
      let baseSize := (dumps (.obj [("content", .arr [])])).length
      (truncLoop maxLength baseSize items []).map (fun out => .obj [("content", .arr out)])
    | _ => some placeholderResponse
  | _ => some placeholderResponse

/-! ## Backend forwarding (forward_to_nlweb) -/

/-- The forwarder's result: the Python function returns either a dict
with an "error" key carrying a message or a dict with a "response" key
carrying the decoded result payload. -/
inductive FwdResult where
  | err : String → FwdResult
  | ok : JValue → FwdResult

/-- Fixed text standing in for the `str(e)` of a Python exception whose
message content the bridge never inspects; no theorem below depends on it. -/
def unmodeledExcDetail : String := "(exception detail not modeled)"

/-- Decoding of a successfully parsed 2xx response body, from the tail of
`forward_to_nlweb`: an "error" key wins and its "message" field (default
"Unknown MCP error") becomes the error; otherwise the "result" field
(Python's dict.get default None when absent) becomes the payload. A non-dict
body makes the Python attribute/subscript accesses raise, which the
enclosing `except Exception` turns into an "An unexpected error occurred"
message; a non-string "message" value would be carried as an object and only
ever formatted, which we approximate by its serialization. -/
def decodeBody (result : JValue) : FwdResult :=
  match result with
  | .obj kvs =>
    match List.lookup "error" kvs with
    | some e =>
      match e with
      | .obj ekvs =>
        match List.lookup "message" ekvs with
        | some (.str m) => .err m
        | some v => .err (dumps v)
        | none => .err "Unknown MCP error"
      | _ => .err ("An unexpected error occurred: " ++ unmodeledExcDetail)
    | none => .ok ((List.lookup "result" kvs).getD .null)
  | _ => .err ("An unexpected error occurred: " ++ unmodeledExcDetail)

/-- What the HTTP boundary handed back for the single POST the forwarder
issues: a transport failure (httpx.RequestError), any other exception raised
during the call, or an HTTP response with a status code, its raw body text,
and the outcome of `response.json()` on that body (the JSON decoder is
Python's; a parse failure carries the decoder's message). -/
inductive BackendResponse where
  | requestError : String → BackendResponse
  | unexpectedException : String → BackendResponse
  | httpResponse : Nat → String → Except String JValue → BackendResponse

/-- `forward_to_nlweb`, as a function of what the HTTP boundary returned:
`raise_for_status` raises for any non-2xx status (httpx HTTPStatusError,
mapped to "HTTP error: status - body"); a network failure maps to
"Request failed: ..."; any other exception, including a JSON decode failure
of the body, maps to "An unexpected error occurred: ..."; a parsed 2xx body
is decoded by `decodeBody`. -/
def forward_to_nlweb (resp : BackendResponse) : FwdResult :=
  match resp with
  | .requestError d => .err ("Request failed: " ++ d)
  | .unexpectedException d => .err ("An unexpected error occurred: " ++ d)
  | .httpResponse status text parsed =>
    if status < 200 ∨ 300 ≤ status then
      .err ("HTTP error: " ++ toString status ++ " - " ++ text)
    else
      match parsed with
      | .error d => .err ("An unexpected error occurred: " ++ d)
      | .ok body => decodeBody body

/-! ## Handlers (list_tools, list_prompts, call_tool) -/

/-- The local Tool descriptor (mcp.types.Tool). Field values are carried as
the JSON values the backend supplied; the external library's own field
validation is outside the bridge and not modelled. -/
structure Tool where
  name : JValue
  description : JValue
  inputSchema : JValue

/-- A prompt argument descriptor (mcp.types.PromptArgument). -/
structure PromptArgument where
  name : String
  description : String
  required : Bool

/-- The local Prompt descriptor (mcp.types.Prompt). -/
structure Prompt where
  name : JValue
  description : JValue
  arguments : List PromptArgument

/-- A text content item of the local transport (mcp.types.TextContent). -/
structure TextContent where
  type : String
  text : String

/-- The outcome of running a handler body: a returned value, or a Python
exception (named by its class) that the body does not catch and which
therefore propagates to the local transport layer. -/
inductive HandlerOutcome (α : Type) where
  | ok : α → HandlerOutcome α
  | exn : String → HandlerOutcome α

/-- The built-in fallback tool descriptor. -/
def fallbackTool : Tool :=
  ⟨.str "ask_nlw",
   .str "Connects with the NLWeb server to answer questions",
   .obj [("type", .str "object"),
         ("properties",
          .obj [("query",
                 .obj [("type", .str "string"),
                       ("description",
                        .str "The query string to send to the NLWeb server")])]),
         ("required", .arr [.str "query"])]⟩

/-- The built-in fallback prompt descriptor. -/
def fallbackPrompt : Prompt :=
  ⟨.str "ask_nlw",
   .str "Connects with the NLWeb server to answer questions",
   [⟨"query", "query string in english", true⟩]⟩

/-- Mapping one backend tool record to a Tool: subscripting a non-dict
record raises TypeError and a dict missing a key raises KeyError, both
caught by the handler; `none` models either. -/
def toolOfRecord : JValue → Option Tool
  | .obj kvs =>
    match List.lookup "name" kvs with
    | none => none
    | some n =>
      match List.lookup "description" kvs with
      | none => none
      | some d =>
        match List.lookup "inputSchema" kvs with
        | none => none
        | some s => some ⟨n, d, s⟩
  | _ => none

/-- Mapping one backend prompt record to a Prompt (the handler reads "id"
and "description" and attaches a fixed single argument). -/
def promptOfRecord : JValue → Option Prompt
  | .obj kvs =>
    match List.lookup "id" kvs with
    | none => none
    | some i =>
      match List.lookup "description" kvs with
      | none => none
      | some d => some ⟨i, d, [⟨"query", "query string in english", true⟩]⟩
  | _ => none

/-- The `list_tools` handler, as a function of the forwarder's outcome.

An `err` outcome returns the fallback. Otherwise the handler runs
`result.get("response", {}).get("tools", [])` and a list comprehension over
the records inside a `try` block that catches only KeyError and TypeError:

* a non-dict response payload makes the second `.get` raise AttributeError,
  which the except clause does not catch, so it escapes the handler;
* a list of records maps per-record, any KeyError/TypeError falling back;
* iterating a non-list "tools" value raises TypeError either at the for
  statement (non-iterable) or when subscripting the first character/key of a
  string/dict (both caught, giving the fallback) — except that an empty
  string or empty dict iterates zero times and yields an empty listing. -/
def list_tools (outcome : FwdResult) : HandlerOutcome (List Tool) :=
  match outcome with
  | .err _ => .ok [fallbackTool]
  | .ok response =>
    match response with
    | .obj rkvs =>
      match (List.lookup "tools" rkvs).getD (.arr []) with
      | .arr records =>
        match records.mapM toolOfRecord with
        | some ts => .ok ts
        | none => .ok [fallbackTool]
      | .str s => if s.isEmpty then .ok [] else .ok [fallbackTool]
      | .obj [] => .ok []
      | _ => .ok [fallbackTool]
    | _ => .exn "AttributeError"

/-- The `list_prompts` handler; same structure as `list_tools` over
`result.get("response", {}).get("prompts", [])`. -/
def list_prompts (outcome : FwdResult) : HandlerOutcome (List Prompt) :=
  match outcome with
  | .err _ => .ok [fallbackPrompt]
  | .ok response =>
    match response with
    | .obj rkvs =>
      match (List.lookup "prompts" rkvs).getD (.arr []) with
      | .arr records =>
        match records.mapM promptOfRecord with
        | some ps => .ok ps
        | none => .ok [fallbackPrompt]
      | .str s => if s.isEmpty then .ok [] else .ok [fallbackPrompt]
      | .obj [] => .ok []
      | _ => .ok [fallbackPrompt]
    | _ => .exn "AttributeError"

/-- The `call_tool` handler, as a function of the forwarder's outcome: an
`err` outcome becomes an error text item; otherwise the payload is truncated
when it is a dict or list and the (truncated) payload is serialized with
indent=2; a TypeError raised inside the truncator is caught by the handler's
`except Exception` and becomes a processing-error text item. -/
def call_tool (outcome : FwdResult) : List TextContent :=
  match outcome with
  | .err m => [⟨"text", "Error: " ++ m⟩]
  | .ok response =>
    let structured : Bool :=
      match response with
      | .obj _ => true
      | .arr _ => true
      | _ => false
    match (if structured
           then truncate_preserving_early_entries response MAX_TOOL_OUTPUT_LENGTH
           else some response) with
    | some d => [⟨"text", dumpsInd 0 d⟩]
    | none => [⟨"text", "Error processing response: " ++ unmodeledExcDetail⟩]

/-! ## Concrete values and predicates used by the statements -/

/-- A standard text content item, the ContentItem shape of the data model. -/
def texty (s : String) : JValue :=
  .obj [("type", .str "text"), ("text", .str s)]

/-- A string of `n` letters, used to build content items of exact serialized
sizes (the letter is plain ASCII, so it serializes to itself). -/
def pad (n : Nat) : String :=
  String.mk (List.replicate n 'a')

/-- A character the json encoder emits unchanged: printable ASCII other than
the quote and the backslash. -/
def PlainChar (c : Char) : Prop :=
  0x20 ≤ c.toNat ∧ c.toNat ≤ 0x7e ∧ c ≠ '"' ∧ c ≠ '\\'

instance (c : Char) : Decidable (PlainChar c) := by
  unfold PlainChar; infer_instance

/-- A content item of serialized size 10000 (a text item with `n` plain
characters serializes to `28 + n` characters). -/
def c3A : JValue := texty (pad 9972)

/-- A content item of serialized size 20000. -/
def c3B : JValue := texty (pad 19972)

/-- The scenario input of the spec: five content items whose serialized
sizes are 10000, 10000, 10000, 10000 and 20000 characters. -/
def c3Input : JValue :=
  .obj [("content", .arr [c3A, c3A, c3A, c3A, c3B])]

/-- What the code actually produces for `c3Input` at budget 40000: the first
three items followed by the sentinel (the fourth item would bring the
serialized content list to 40008 characters, over the budget). -/
def c3Output : JValue :=
  .obj [("content", .arr [c3A, c3A, c3A, sentinelItem])]

/-- What the spec scenario expected for `c3Input`: items 1-4 kept and the
sentinel in place of item 5. -/
def c3Claimed : JValue :=
  .obj [("content", .arr [c3A, c3A, c3A, c3A, sentinelItem])]

/-- An empty text content item, of serialized size 28 (46 at indent depth 4). -/
def c9Item : JValue := texty ""

/-- A backend result of 1300 empty text items: its compact content list
serializes to 38998 + 2 = 39000 characters, within the 40000 budget, while
its indent-2 serialization is 67621 characters. -/
def c9Input : JValue :=
  .obj [("content", .arr (List.replicate 1300 c9Item))]

/-! ## Length lemmas for the serializers -/

theorem escapeChar_plain {c : Char} (h : PlainChar c) :
    escapeChar c = String.singleton c := by
  obtain ⟨h1, h2, h3, h4⟩ := h
  have hn : c ≠ '\n' := by rintro rfl; exact absurd h1 (by decide)
  have hr : c ≠ '\r' := by rintro rfl; exact absurd h1 (by decide)
  have ht : c ≠ '\t' := by rintro rfl; exact absurd h1 (by decide)
  have hb : c ≠ '\x08' := by rintro rfl; exact absurd h1 (by decide)
  have hf : c ≠ '\x0c' := by rintro rfl; exact absurd h1 (by decide)
  unfold escapeChar
  rw [if_neg h3, if_neg h4, if_neg hn, if_neg hr, if_neg ht, if_neg hb, if_neg hf,
      if_pos ⟨h1, h2⟩]

theorem escBody_length_plain : ∀ {l : List Char}, (∀ c ∈ l, PlainChar c) →
    (escBody l).length = l.length
  | [], _ => rfl
  | c :: cs, h => by
    rw [show escBody (c :: cs) = escapeChar c ++ escBody cs from rfl,
        String.length_append, escapeChar_plain (h c (by simp)),
        escBody_length_plain (fun d hd => h d (by simp [hd]))]
    simp [String.singleton]
    omega

theorem pad_plain (n : Nat) : ∀ c ∈ (pad n).data, PlainChar c := by
  intro c hc
  rw [show (pad n).data = List.replicate n 'a' from rfl] at hc
  rw [List.eq_of_mem_replicate hc]
  decide

theorem escBody_pad_length (n : Nat) : (escBody (pad n).data).length = n := by
  rw [escBody_length_plain (pad_plain n)]
  simp [pad]

theorem dumps_str_length (s : String) :
    (dumps (.str s)).length = (escBody s.data).length + 2 := by
  rw [show dumps (.str s) = "\"" ++ escBody s.data ++ "\"" from rfl]
  simp only [String.length_append]
  have h1 : "\"".length = 1 := rfl
  omega

theorem dumps_texty_length (s : String) :
    (dumps (texty s)).length = 28 + (escBody s.data).length := by
  rw [show dumps (texty s) =
        "\x7b" ++ (dumpString "type" ++ ": " ++ dumps (.str "text") ++ ", " ++
          (dumpString "text" ++ ": " ++ dumps (.str s))) ++ "\x7d" from rfl,
      show dumps (.str s) = "\"" ++ escBody s.data ++ "\"" from rfl]
  simp only [String.length_append]
  have h1 : (dumpString "type").length = 6 := rfl
  have h2 : (dumps (JValue.str "text")).length = 6 := rfl
  have h3 : (dumpString "text").length = 6 := rfl
  have h4 : ": ".length = 2 := rfl
  have h5 : ", ".length = 2 := rfl
  have h6 : "\"".length = 1 := rfl
  have h7 : "\x7b".length = 1 := rfl
  have h8 : "\x7d".length = 1 := rfl
  omega

theorem dumps_texty_pad_length (n : Nat) :
    (dumps (texty (pad n))).length = 28 + n := by
  rw [dumps_texty_length, escBody_pad_length]

theorem dumps_arr_length (xs : List JValue) :
    (dumps (.arr xs)).length = (dumpsListBody xs).length + 2 := by
  rw [show dumps (.arr xs) = "[" ++ dumpsListBody xs ++ "]" from rfl]
  simp only [String.length_append]
  have h1 : "[".length = 1 := rfl
  have h2 : "]".length = 1 := rfl
  omega

theorem dumpsListBody_cons_length (x : JValue) (xs : List JValue) (h : xs ≠ []) :
    (dumpsListBody (x :: xs)).length = (dumps x).length + 2 + (dumpsListBody xs).length := by
  cases xs with
  | nil => exact absurd rfl h
  | cons y ys =>
    rw [show dumpsListBody (x :: y :: ys) = dumps x ++ ", " ++ dumpsListBody (y :: ys) from rfl]
    simp only [String.length_append]
    have h1 : ", ".length = 2 := rfl
    omega

theorem dumpsListBody_le_append (xs ys : List JValue) :
    (dumpsListBody xs).length ≤ (dumpsListBody (xs ++ ys)).length := by
  induction xs with
  | nil => simp [show dumpsListBody [] = "" from rfl]
  | cons x xs ih =>
    cases xs with
    | nil =>
      cases ys with
      | nil => simp
      | cons y ys =>
        rw [List.singleton_append, dumpsListBody_cons_length x (y :: ys) (by simp),
            show dumpsListBody [x] = dumps x from rfl]
        omega
    | cons a t =>
      rw [dumpsListBody_cons_length x (a :: t) (by simp),
          show (x :: a :: t) ++ ys = x :: ((a :: t) ++ ys) from rfl,
          dumpsListBody_cons_length x ((a :: t) ++ ys) (by simp)]
      omega

theorem dumpsObjBody_cons_length (k : String) (v : JValue)
    (kvs : List (String × JValue)) (h : kvs ≠ []) :
    (dumpsObjBody ((k, v) :: kvs)).length =
      (dumpString k).length + 2 + (dumps v).length + 2 + (dumpsObjBody kvs).length := by
  cases kvs with
  | nil => exact absurd rfl h
  | cons p ps =>
    rw [show dumpsObjBody ((k, v) :: p :: ps) =
          dumpString k ++ ": " ++ dumps v ++ ", " ++ dumpsObjBody (p :: ps) from rfl]
    simp only [String.length_append]
    have h1 : ": ".length = 2 := rfl
    have h2 : ", ".length = 2 := rfl
    omega

theorem dumpsObjBody_single_length (k : String) (v : JValue) :
    (dumpsObjBody [(k, v)]).length = (dumpString k).length + 2 + (dumps v).length := by
  rw [show dumpsObjBody [(k, v)] = dumpString k ++ ": " ++ dumps v from rfl]
  simp only [String.length_append]
  have h1 : ": ".length = 2 := rfl
  omega

theorem dumps_obj_length (kvs : List (String × JValue)) :
    (dumps (.obj kvs)).length = (dumpsObjBody kvs).length + 2 := by
  rw [show dumps (.obj kvs) = "\x7b" ++ dumpsObjBody kvs ++ "\x7d" from rfl]
  simp only [String.length_append]
  have h1 : "\x7b".length = 1 := rfl
  have h2 : "\x7d".length = 1 := rfl
  omega

/-- A value stored under some key of an object serializes within the
object's own serialization. -/
theorem lookup_dumps_le : ∀ (kvs : List (String × JValue)) (k : String) (v : JValue),
    List.lookup k kvs = some v → (dumps v).length ≤ (dumps (.obj kvs)).length
  | [], k, v, h => by simp [List.lookup] at h
  | (k', w) :: kvs, k, v, h => by
    rw [List.lookup] at h
    by_cases hk : k = k'
    · rw [show (k == k') = true from beq_iff_eq.mpr hk] at h
      simp only [] at h
      cases h
      rw [dumps_obj_length]
      cases kvs with
      | nil => rw [dumpsObjBody_single_length]; omega
      | cons p ps => rw [dumpsObjBody_cons_length k' w (p :: ps) (by simp)]; omega
    · rw [show (k == k') = false from beq_eq_false_iff_ne.mpr hk] at h
      simp only [] at h
      have ih := lookup_dumps_le kvs k v h
      rw [dumps_obj_length] at *
      cases kvs with
      | nil => simp [List.lookup] at h
      | cons p ps => rw [dumpsObjBody_cons_length k' w (p :: ps) (by simp)]; omega

/-! ## Truncation loop lemmas -/

theorem truncLoop_nil (m b : Nat) (out : List JValue) :
    truncLoop m b [] out = some out := rfl

theorem truncLoop_skip (m b : Nat) (item : JValue) (rest out : List JValue)
    (h : isTextItem item = false) :
    truncLoop m b (item :: rest) out = truncLoop m b rest out := by
  simp [truncLoop, h]

theorem truncLoop_skip_all (m b : Nat) :
    ∀ (pre : List JValue), (∀ it ∈ pre, isTextItem it = false) →
    ∀ (items out : List JValue),
      truncLoop m b (pre ++ items) out = truncLoop m b items out
  | [], _, items, out => rfl
  | it :: pre, h, items, out => by
    rw [List.cons_append, truncLoop_skip m b it (pre ++ items) out (h it (by simp)),
        truncLoop_skip_all m b pre (fun x hx => h x (by simp [hx])) items out]

theorem truncLoop_fit (m b : Nat) (item : JValue) (rest out : List JValue)
    (h : isTextItem item = true)
    (hs : (dumps (.arr (out ++ [item]))).length ≤ m) :
    truncLoop m b (item :: rest) out = truncLoop m b rest (out ++ [item]) := by
  simp [truncLoop, h, hs]

theorem truncLoop_sentinel (m b : Nat) (item : JValue) (rest out : List JValue)
    (h : isTextItem item = true)
    (hs : ¬ (dumps (.arr (out ++ [item]))).length ≤ m)
    (hne : out ≠ []) :
    truncLoop m b (item :: rest) out = some (out ++ [sentinelItem]) := by
  simp [truncLoop, h, hs, List.isEmpty_iff, hne]

/-- If every item is a text item and the whole extended output fits the
budget, the loop keeps everything. -/
theorem truncLoop_keep_all (m b : Nat) :
    ∀ (items out : List JValue), (∀ it ∈ items, isTextItem it = true) →
      (dumps (.arr (out ++ items))).length ≤ m →
      truncLoop m b items out = some (out ++ items)
  | [], out, _, _ => by simp [truncLoop_nil]
  | item :: rest, out, htext, hsize => by
    have hit : isTextItem item = true := htext item (by simp)
    have happ : (out ++ [item]) ++ rest = out ++ item :: rest := by simp
    have hfit : (dumps (.arr (out ++ [item]))).length ≤ m := by
      have h1 := dumpsListBody_le_append (out ++ [item]) rest
      rw [happ] at h1
      rw [dumps_arr_length] at *
      omega
    rw [truncLoop_fit m b item rest out hit hfit,
        truncLoop_keep_all m b rest (out ++ [item])
          (fun it hx => htext it (by simp [hx])) (by rw [happ]; exact hsize),
        happ]

/-! ## Claim C1 -/

/-- Claim C1 (code bug in the source): the claim says every backend outcome,
including a successful HTTP response whose JSON body has no "result" field,
yields a well-formed response from every handler with no exception
propagating. In the code, such a body decodes to a `None` payload and
`list_tools` then calls `.get("tools", [])` on it, raising an
AttributeError that its `except (KeyError, TypeError)` clause does not
catch, so the exception escapes to the local transport layer. This theorem
evaluates the embedded forward-then-handle pipeline at that input. -/
theorem c1_attribute_error_escapes_list_tools :
    list_tools (forward_to_nlweb (.httpResponse 200
        "\x7b\"jsonrpc\": \"2.0\", \"id\": 1\x7d"
        (.ok (.obj [("jsonrpc", .str "2.0"), ("id", .int 1)])))) =
      .exn "AttributeError" := rfl

/-! ## Claim C5 -/

/-- Claim C5 (code bug in the source): on an `Err` outcome, and on a
KeyError/TypeError while mapping records, both discovery handlers do return
exactly the one fallback descriptor; but when the decoded result is not a
dict (an error while reshaping the result, in the claim's terms) the
handlers raise AttributeError instead of returning the fallback, so the
fallback is not returned on every reshaping error. -/
theorem c5_discovery_fallback_not_total :
    list_tools (forward_to_nlweb (.requestError "All connection attempts failed")) =
        .ok [fallbackTool]
  ∧ list_tools (.ok (.obj [("tools", .arr [.obj [("name", .str "t1")]])])) =
        .ok [fallbackTool]
  ∧ list_prompts (forward_to_nlweb (.requestError "All connection attempts failed")) =
        .ok [fallbackPrompt]
  ∧ list_tools (.ok (.int 5)) = .exn "AttributeError"
  ∧ list_prompts (.ok (.int 5)) = .exn "AttributeError" :=
  ⟨rfl, rfl, rfl, rfl, rfl⟩

/-! ## Claim C6 -/

/-- Claim C6 counterexample: a successfully parsed body with no "error" and
no "result" key decodes to an Ok payload of null (Python `None`, the
`dict.get` default), not an empty object as the claim states. -/
theorem c6_counterexample :
    forward_to_nlweb (.httpResponse 200 "\x7b\"jsonrpc\": \"2.0\", \"id\": 1\x7d"
        (.ok (.obj [("jsonrpc", .str "2.0"), ("id", .int 1)]))) = .ok .null
  ∧ FwdResult.ok .null ≠ .ok (.obj []) :=
  ⟨rfl, by intro h; injection h with h'; exact JValue.noConfusion h'⟩

/-- Claim C6 as amended: for every successfully parsed 2xx body that is an
object with no "error" key and no "result" key, the forward/decode path
returns Ok with payload null (None), the default of Python's `dict.get`. -/
theorem c6_amended (kvs : List (String × JValue)) (text : String)
    (he : List.lookup "error" kvs = none)
    (hr : List.lookup "result" kvs = none) :
    forward_to_nlweb (.httpResponse 200 text (.ok (.obj kvs))) = .ok .null := by
  simp [forward_to_nlweb, decodeBody, he, hr]

/-- Witness for `c6_amended` at the empty object body. -/
theorem c6_amended_witness :
    forward_to_nlweb (.httpResponse 200 "\x7b\x7d" (.ok (.obj []))) = .ok .null :=
  c6_amended [] "\x7b\x7d" rfl rfl

/-! ## Claim C7 -/

/-- Claim C7 counterexample: a backend body that is not valid JSON makes
`response.json()` raise, which the final `except Exception` clause turns
into "An unexpected error occurred: ..." — the string "malformed response"
appears nowhere in the code. -/
theorem c7_counterexample :
    forward_to_nlweb (.httpResponse 200 "not json"
        (.error "Expecting value: line 1 column 1 (char 0)")) =
      .err ("An unexpected error occurred: Expecting value: line 1 column 1 (char 0)")
  ∧ forward_to_nlweb (.httpResponse 200 "not json"
        (.error "Expecting value: line 1 column 1 (char 0)")) ≠
      .err "malformed response" :=
  ⟨rfl, by intro h; injection h with h'; exact absurd h' (by decide)⟩

/-- Claim C7 as amended: for every 2xx backend response whose body fails to
parse as JSON, the forward/decode path returns Err whose message is
"An unexpected error occurred: " followed by the decoder's description. -/
theorem c7_amended (text d : String) :
    forward_to_nlweb (.httpResponse 200 text (.error d)) =
      .err ("An unexpected error occurred: " ++ d) := rfl

/-! ## Claim C8 -/

/-- Claim C8 (confirmed): when the forwarded tool call succeeds with a JSON
array result, the truncator's shape check fails (an array is not a dict with
a "content" key) and it returns the fixed placeholder, so the handler's
returned text is the indent-2 serialization of the placeholder and none of
the array's elements appear in it. -/
theorem c8_array_result_always_placeholder (xs : List JValue) :
    call_tool (.ok (.arr xs)) = [⟨"text", dumpsInd 0 placeholderResponse⟩] := rfl

/-! ## Claim C10 -/

/-- Claim C10 (confirmed): a well-shaped input none of whose items is a dict
carrying a "text" key truncates to an empty content list — every item is
skipped, and neither sentinel nor placeholder is added, whatever the
budget. -/
theorem c10_no_text_items_yields_empty_content (kvs : List (String × JValue))
    (items : List JValue) (maxLen : Nat)
    (hc : List.lookup "content" kvs = some (.arr items))
    (hno : ∀ it ∈ items, isTextItem it = false) :
    truncate_preserving_early_entries (.obj kvs) maxLen =
      some (.obj [("content", .arr [])]) := by
  simp only [truncate_preserving_early_entries, hc]
  rw [show items = items ++ ([] : List JValue) from (List.append_nil items).symm,
      truncLoop_skip_all maxLen _ items hno [] []]
  rfl

/-- Witness for `c10_no_text_items_yields_empty_content` on one non-text
item at budget 7. -/
theorem c10_witness :
    truncate_preserving_early_entries
        (.obj [("content", .arr [.obj [("type", .str "image")]])]) 7 =
      some (.obj [("content", .arr [])]) :=
  c10_no_text_items_yields_empty_content _ _ 7 rfl (by decide)

/-! ## Claim C2 -/

/-- Claim C2 counterexample: a response whose total serialized size is far
below the budget but whose single content item carries no "text" key is not
returned unchanged — the item is silently dropped. -/
theorem c2_counterexample :
    (dumps (.obj [("content", .arr [.obj [("type", .str "image")]])])).length ≤ 40000
  ∧ truncate_preserving_early_entries
        (.obj [("content", .arr [.obj [("type", .str "image")]])]) 40000 =
      some (.obj [("content", .arr [])])
  ∧ truncate_preserving_early_entries
        (.obj [("content", .arr [.obj [("type", .str "image")]])]) 40000 ≠
      some (.obj [("content", .arr [.obj [("type", .str "image")]])]) := by
  refine ⟨by decide, rfl, ?_⟩
  intro h
  have h1 : JValue.obj [("content", JValue.arr [])] =
      JValue.obj [("content", JValue.arr [JValue.obj [("type", JValue.str "image")]])] :=
    Option.some.inj h
  simp at h1

/-- Claim C2 as amended: restricted to responses every one of whose content
items is a dict carrying a "text" key, truncation at a budget at least the
total serialized size of the response returns the content list unchanged,
with no sentinel added. -/
theorem c2_amended (kvs : List (String × JValue)) (items : List JValue) (maxLen : Nat)
    (hc : List.lookup "content" kvs = some (.arr items))
    (htext : ∀ it ∈ items, isTextItem it = true)
    (hsize : (dumps (.obj kvs)).length ≤ maxLen) :
    truncate_preserving_early_entries (.obj kvs) maxLen =
      some (.obj [("content", .arr items)]) := by
  have harr : (dumps (.arr items)).length ≤ maxLen :=
    le_trans (lookup_dumps_le kvs "content" (.arr items) hc) hsize
  simp only [truncate_preserving_early_entries, hc]
  rw [truncLoop_keep_all maxLen _ items [] htext (by rw [List.nil_append]; exact harr)]
  simp

/-- Witness for `c2_amended` on a one-item response at budget 40000. -/
theorem c2_amended_witness :
    truncate_preserving_early_entries (.obj [("content", .arr [texty "hi"])]) 40000 =
      some (.obj [("content", .arr [texty "hi"])]) :=
  c2_amended _ _ 40000 rfl (by decide) (by decide)

/-! ## Claim C3 -/

theorem c3A_length : (dumps c3A).length = 10000 := by
  rw [show c3A = texty (pad 9972) from rfl, dumps_texty_pad_length]

theorem c3_dlb1 : (dumpsListBody [c3A]).length = 10000 := by
  rw [show dumpsListBody [c3A] = dumps c3A from rfl, c3A_length]

theorem c3_dlb2 : (dumpsListBody [c3A, c3A]).length = 20002 := by
  rw [dumpsListBody_cons_length c3A [c3A] (by simp), c3A_length, c3_dlb1]

theorem c3_dlb3 : (dumpsListBody [c3A, c3A, c3A]).length = 30004 := by
  rw [dumpsListBody_cons_length c3A [c3A, c3A] (by simp), c3A_length, c3_dlb2]

theorem c3_dlb4 : (dumpsListBody [c3A, c3A, c3A, c3A]).length = 40006 := by
  rw [dumpsListBody_cons_length c3A [c3A, c3A, c3A] (by simp), c3A_length, c3_dlb3]

theorem c3_dlb_out : (dumpsListBody [c3A, c3A, c3A, sentinelItem]).length = 30049 := by
  rw [dumpsListBody_cons_length c3A [c3A, c3A, sentinelItem] (by simp),
      dumpsListBody_cons_length c3A [c3A, sentinelItem] (by simp),
      dumpsListBody_cons_length c3A [sentinelItem] (by simp),
      show dumpsListBody [sentinelItem] = dumps sentinelItem from rfl,
      show (dumps sentinelItem).length = 43 from rfl, c3A_length]

theorem c3_dlb_claimed :
    (dumpsListBody [c3A, c3A, c3A, c3A, sentinelItem]).length = 40051 := by
  rw [dumpsListBody_cons_length c3A [c3A, c3A, c3A, sentinelItem] (by simp),
      c3A_length, c3_dlb_out]

/-- The loop on the scenario items keeps the first three, then replaces the
rest with the sentinel (the fourth would bring the list to 40008 > 40000). -/
theorem c3_loop (b : Nat) :
    truncLoop 40000 b [c3A, c3A, c3A, c3A, c3B] [] =
      some [c3A, c3A, c3A, sentinelItem] := by
  have ht : isTextItem c3A = true := rfl
  have f1 : (dumps (.arr ([] ++ [c3A]))).length ≤ 40000 := by
    rw [List.nil_append, dumps_arr_length, c3_dlb1]; omega
  have f2 : (dumps (.arr ([c3A] ++ [c3A]))).length ≤ 40000 := by
    rw [show [c3A] ++ [c3A] = [c3A, c3A] from rfl, dumps_arr_length, c3_dlb2]; omega
  have f3 : (dumps (.arr ([c3A, c3A] ++ [c3A]))).length ≤ 40000 := by
    rw [show [c3A, c3A] ++ [c3A] = [c3A, c3A, c3A] from rfl, dumps_arr_length, c3_dlb3]
    omega
  have f4 : ¬ (dumps (.arr ([c3A, c3A, c3A] ++ [c3A]))).length ≤ 40000 := by
    rw [show [c3A, c3A, c3A] ++ [c3A] = [c3A, c3A, c3A, c3A] from rfl,
        dumps_arr_length, c3_dlb4]
    omega
  rw [truncLoop_fit 40000 b c3A [c3A, c3A, c3A, c3B] [] ht f1]
  simp only [List.nil_append]
  rw [truncLoop_fit 40000 b c3A [c3A, c3A, c3B] [c3A] ht f2]
  simp only [List.cons_append, List.nil_append]
  rw [truncLoop_fit 40000 b c3A [c3A, c3B] [c3A, c3A] ht f3]
  simp only [List.cons_append, List.nil_append]
  rw [truncLoop_sentinel 40000 b c3A [c3B] [c3A, c3A, c3A] ht f4 (by simp)]
  simp

/-- Evaluation of the truncator on the scenario input. -/
theorem c3_eval :
    truncate_preserving_early_entries c3Input 40000 = some c3Output := by
  show (truncLoop 40000 (dumps (.obj [("content", .arr [])])).length
          [c3A, c3A, c3A, c3A, c3B] []).map
        (fun out => JValue.obj [("content", JValue.arr out)]) = some c3Output
  rw [c3_loop]
  rfl

theorem c3Output_length : (dumps c3Output).length = 30064 := by
  rw [show c3Output = .obj [("content", .arr [c3A, c3A, c3A, sentinelItem])] from rfl,
      dumps_obj_length, dumpsObjBody_single_length, dumps_arr_length, c3_dlb_out]
  have h : (dumpString "content").length = 9 := rfl
  omega

theorem c3Claimed_length : (dumps c3Claimed).length = 40066 := by
  rw [show c3Claimed = .obj [("content", .arr [c3A, c3A, c3A, c3A, sentinelItem])] from rfl,
      dumps_obj_length, dumpsObjBody_single_length, dumps_arr_length, c3_dlb_claimed]
  have h : (dumpString "content").length = 9 := rfl
  omega

/-- Claim C3 counterexample: on the scenario input (five items of serialized
sizes 10000, 10000, 10000, 10000, 20000) at budget 40000, the code does not
keep items 1-4: appending the fourth item would make the serialized content
list 40008 characters (brackets and separators included), so items 4 and 5
are both replaced by the sentinel, contradicting the claimed output. -/
theorem c3_counterexample :
    truncate_preserving_early_entries c3Input 40000 ≠ some c3Claimed := by
  intro h
  have h1 : c3Output = c3Claimed := Option.some.inj ((c3_eval).symm.trans h)
  have h2 : (dumps c3Output).length = (dumps c3Claimed).length :=
    congrArg (fun v => (dumps v).length) h1
  rw [c3Output_length, c3Claimed_length] at h2
  exact absurd h2 (by decide)

/-- Claim C3 as amended: on the scenario input at budget 40000, the code
keeps items 1-3 intact and replaces items 4-5 with the single sentinel item,
and the output's total serialized size (30064) is within 40000. -/
theorem c3_amended :
    truncate_preserving_early_entries c3Input 40000 = some c3Output
  ∧ (dumps c3Output).length ≤ 40000 :=
  ⟨c3_eval, by rw [c3Output_length]; omega⟩

/-! ## Claim C4 -/

theorem escBody_length_append (l1 l2 : List Char) :
    (escBody (l1 ++ l2)).length = (escBody l1).length + (escBody l2).length := by
  induction l1 with
  | nil => simp [show escBody [] = "" from rfl]
  | cons c cs ih =>
    rw [List.cons_append,
        show escBody (c :: (cs ++ l2)) = escapeChar c ++ escBody (cs ++ l2) from rfl,
        show escBody (c :: cs) = escapeChar c ++ escBody cs from rfl,
        String.length_append, String.length_append, ih]
    omega

theorem pySliceTo_natCast (s : String) (n : Nat) :
    pySliceTo s (n : Int) = String.mk (s.data.take n) := by
  unfold pySliceTo
  rw [if_neg (by omega), Int.toNat_natCast]

/-- The first surviving item alone overflows the budget: the loop slices its
text to the computed available space and appends the truncation marker. -/
theorem truncLoop_first_overflow (m b : Nat) (kvs : List (String × JValue)) (t : String)
    (rest : List JValue)
    (htext : List.lookup "text" kvs = some (.str t))
    (hs : ¬ (dumps (.arr [.obj kvs])).length ≤ m) :
    truncLoop m b (.obj kvs :: rest) [] =
      some [.obj (setTextField kvs
        (pySliceTo t ((m : Int) - (b : Int) -
            ((dumps (.obj (removeTextField kvs))).length : Int) - 20) ++
          "... (truncated)"))] := by
  have hit : isTextItem (.obj kvs) = true := by simp [isTextItem, htext]
  simp [truncLoop, hit, htext, hs]

/-- Claim C4 as amended: for a well-shaped input whose first text-bearing
item is a standard text item with plain-ASCII text, preceded only by
non-text items, with a budget of at least 51: if that item alone exceeds
the budget, the result has exactly one content item, its text is the
truncated slice followed by "... (truncated)", and the result's total
serialized size is maxLength + 7 — seven characters over the budget, not
within it as the claim stated (the code reserves only 20 characters for a
27-character worst-case overhead). -/
theorem c4_amended (pre rest : List JValue) (t : String) (maxLen : Nat)
    (hpre : ∀ it ∈ pre, isTextItem it = false)
    (hplain : ∀ c ∈ t.data, PlainChar c)
    (hbudget : 51 ≤ maxLen)
    (hover : maxLen < (dumps (.arr [texty t])).length) :
    truncate_preserving_early_entries
        (.obj [("content", .arr (pre ++ texty t :: rest))]) maxLen
      = some (.obj [("content",
          .arr [texty (String.mk (t.data.take (maxLen - 51)) ++ "... (truncated)")])])
  ∧ (dumps (.obj [("content",
        .arr [texty (String.mk (t.data.take (maxLen - 51)) ++ "... (truncated)")])])).length
      = maxLen + 7 := by
  have harr1 : (dumps (.arr [texty t])).length = 30 + t.data.length := by
    rw [dumps_arr_length, show dumpsListBody [texty t] = dumps (texty t) from rfl,
        dumps_texty_length, escBody_length_plain hplain]
    omega
  rw [harr1] at hover
  have htlen : maxLen - 51 ≤ t.data.length := by omega
  refine ⟨?_, ?_⟩
  · show (truncLoop maxLen (dumps (.obj [("content", .arr [])])).length
            (pre ++ texty t :: rest) []).map
          (fun out => JValue.obj [("content", JValue.arr out)]) = _
    rw [truncLoop_skip_all maxLen _ pre hpre (texty t :: rest) []]
    have hnofit : ¬ (dumps (.arr [texty t])).length ≤ maxLen := by rw [harr1]; omega
    rw [show texty t = JValue.obj [("type", JValue.str "text"), ("text", JValue.str t)]
          from rfl] at hnofit ⊢
    rw [truncLoop_first_overflow maxLen _
          [("type", JValue.str "text"), ("text", JValue.str t)] t rest rfl hnofit]
    rw [show removeTextField [("type", JValue.str "text"), ("text", JValue.str t)]
          = [("type", JValue.str "text")] from rfl,
        show ((dumps (JValue.obj [("type", JValue.str "text")])).length : Int)
          = (16 : Int) from rfl,
        show ((dumps (JValue.obj [("content", JValue.arr [])])).length : Int)
          = (15 : Int) from rfl]
    have havail : (maxLen : Int) - (15 : Int) - (16 : Int) - 20
        = ((maxLen - 51 : Nat) : Int) := by omega
    rw [havail, pySliceTo_natCast,
        show setTextField [("type", JValue.str "text"), ("text", JValue.str t)]
            (String.mk (t.data.take (maxLen - 51)) ++ "... (truncated)")
          = [("type", JValue.str "text"),
             ("text", JValue.str (String.mk (t.data.take (maxLen - 51)) ++
               "... (truncated)"))] from rfl]
    rfl
  · rw [dumps_obj_length, dumpsObjBody_single_length, dumps_arr_length,
        show dumpsListBody [texty (String.mk (t.data.take (maxLen - 51)) ++
              "... (truncated)")]
          = dumps (texty (String.mk (t.data.take (maxLen - 51)) ++
              "... (truncated)")) from rfl,
        dumps_texty_length,
        show (String.mk (t.data.take (maxLen - 51)) ++ "... (truncated)").data
          = t.data.take (maxLen - 51) ++ "... (truncated)".data from rfl,
        escBody_length_append,
        escBody_length_plain (fun c hc => hplain c (List.mem_of_mem_take hc)),
        show (escBody "... (truncated)".data).length = 15 from rfl,
        List.length_take]
    have h9 : (dumpString "content").length = 9 := rfl
    omega

set_option maxRecDepth 20000 in
/-- Witness for `c4_amended`: a single 200-letter item at budget 100 is cut
to 49 letters plus the marker, and the result serializes to 107 characters. -/
theorem c4_amended_witness :
    truncate_preserving_early_entries
        (.obj [("content", .arr ([] ++ texty (pad 200) :: []))]) 100
      = some (.obj [("content",
          .arr [texty (String.mk ((pad 200).data.take (100 - 51)) ++ "... (truncated)")])])
  ∧ (dumps (.obj [("content",
        .arr [texty (String.mk ((pad 200).data.take (100 - 51)) ++
          "... (truncated)")])])).length = 100 + 7 :=
  c4_amended [] [] (pad 200) 100 (by simp) (pad_plain 200) (by decide) (by decide)

set_option maxRecDepth 20000 in
/-- Claim C4 counterexample: a well-shaped input whose only content item
(200 plain characters of text, serialized item size 228) alone exceeds the
budget 100 truncates to one item as claimed, but the result's total
serialized size is 107, which exceeds the budget. -/
theorem c4_counterexample :
    100 < (dumps (.arr [texty (pad 200)])).length
  ∧ truncate_preserving_early_entries (.obj [("content", .arr [texty (pad 200)])]) 100
      = some (.obj [("content",
          .arr [texty (String.mk ((pad 200).data.take 49) ++ "... (truncated)")])])
  ∧ 100 < (dumps (.obj [("content",
        .arr [texty (String.mk ((pad 200).data.take 49) ++
          "... (truncated)")])])).length :=
  ⟨by decide, rfl, by decide⟩

/-! ## Claim C9 -/

theorem spaces_length (n : Nat) : (spaces n).length = n := by
  simp [spaces]

theorem dumpsIndListBody_cons_length (d : Nat) (x : JValue) (xs : List JValue)
    (h : xs ≠ []) :
    (dumpsIndListBody d (x :: xs)).length =
      (dumpsInd d x).length + 2 + d + (dumpsIndListBody d xs).length := by
  cases xs with
  | nil => exact absurd rfl h
  | cons y ys =>
    rw [show dumpsIndListBody d (x :: y :: ys)
          = dumpsInd d x ++ ",\n" ++ spaces d ++ dumpsIndListBody d (y :: ys) from rfl]
    simp only [String.length_append, spaces_length]
    have h1 : ",\n".length = 2 := rfl
    omega

theorem c9_dlb_replicate : ∀ n : Nat,
    (dumpsListBody (List.replicate (n + 1) c9Item)).length = 28 * (n + 1) + 2 * n
  | 0 => by
    rw [show List.replicate 1 c9Item = [c9Item] from rfl,
        show dumpsListBody [c9Item] = dumps c9Item from rfl,
        show (dumps c9Item).length = 28 from rfl]
  | n + 1 => by
    rw [show List.replicate (n + 2) c9Item = c9Item :: List.replicate (n + 1) c9Item
          from rfl,
        dumpsListBody_cons_length c9Item (List.replicate (n + 1) c9Item)
          (by simp [List.replicate_succ]),
        c9_dlb_replicate n,
        show (dumps c9Item).length = 28 from rfl]
    ring

theorem c9_dilb_replicate : ∀ n : Nat,
    (dumpsIndListBody 4 (List.replicate (n + 1) c9Item)).length = 46 * (n + 1) + 6 * n
  | 0 => by
    rw [show List.replicate 1 c9Item = [c9Item] from rfl,
        show dumpsIndListBody 4 [c9Item] = dumpsInd 4 c9Item from rfl,
        show (dumpsInd 4 c9Item).length = 46 from rfl]
  | n + 1 => by
    rw [show List.replicate (n + 2) c9Item = c9Item :: List.replicate (n + 1) c9Item
          from rfl,
        dumpsIndListBody_cons_length 4 c9Item (List.replicate (n + 1) c9Item)
          (by simp [List.replicate_succ]),
        c9_dilb_replicate n,
        show (dumpsInd 4 c9Item).length = 46 from rfl]
    ring

/-- The 1300-item input is returned unchanged by the truncator: its compact
content list serializes to 38998 + 2 = 39000 characters, within budget. -/
theorem c9_trunc_eval :
    truncate_preserving_early_entries c9Input 40000 = some c9Input := by
  show (truncLoop 40000 (dumps (.obj [("content", .arr [])])).length
          (List.replicate 1300 c9Item) []).map
        (fun out => JValue.obj [("content", JValue.arr out)]) = some c9Input
  rw [truncLoop_keep_all 40000 _ (List.replicate 1300 c9Item) []
        (fun it h => by rw [List.eq_of_mem_replicate h]; rfl)
        (by rw [List.nil_append, dumps_arr_length,
                show List.replicate 1300 c9Item = List.replicate (1299 + 1) c9Item
                  from rfl,
                c9_dlb_replicate 1299]
            omega)]
  rfl

theorem c9_input_compact_length : (dumps c9Input).length = 39013 := by
  rw [show c9Input = .obj [("content", .arr (List.replicate 1300 c9Item))] from rfl,
      dumps_obj_length, dumpsObjBody_single_length, dumps_arr_length,
      show List.replicate 1300 c9Item = List.replicate (1299 + 1) c9Item from rfl,
      c9_dlb_replicate 1299]
  have h9 : (dumpString "content").length = 9 := rfl
  omega

theorem c9_input_indent_length : (dumpsInd 0 c9Input).length = 67621 := by
  rw [show dumpsInd 0 c9Input
        = "\x7b\n" ++ spaces 2 ++ (dumpString "content" ++ ": " ++
            dumpsInd 2 (.arr (List.replicate 1300 c9Item))) ++ "\n" ++ spaces 0 ++ "\x7d"
        from rfl,
      show dumpsInd 2 (.arr (List.replicate 1300 c9Item))
        = "[\n" ++ spaces 4 ++ dumpsIndListBody 4 (List.replicate 1300 c9Item) ++
          "\n" ++ spaces 2 ++ "]" from rfl]
  simp only [String.length_append, spaces_length]
  rw [show List.replicate 1300 c9Item = List.replicate (1299 + 1) c9Item from rfl,
      c9_dilb_replicate 1299]
  have h1 : "\x7b\n".length = 2 := rfl
  have h2 : "\n".length = 1 := rfl
  have h3 : "\x7d".length = 1 := rfl
  have h4 : "]".length = 1 := rfl
  have h5 : "[\n".length = 2 := rfl
  have h6 : ": ".length = 2 := rfl
  have h9 : (dumpString "content").length = 9 := rfl
  omega

/-- Claim C9 (confirmed): the truncator budgets the compact serialization of
the content list, while `call_tool` returns the indent-2 serialization of
the truncated response, so there is a backend result dict (1300 empty text
items) that passes truncation untouched within the 40000 budget yet whose
returned text is longer than 40000 characters. -/
theorem c9_indent_exceeds_budget :
    ∃ v : JValue,
      truncate_preserving_early_entries v 40000 = some v
    ∧ (dumps v).length ≤ 40000
    ∧ call_tool (.ok v) = [⟨"text", dumpsInd 0 v⟩]
    ∧ 40000 < (dumpsInd 0 v).length := by
  refine ⟨c9Input, c9_trunc_eval, ?_, ?_, ?_⟩
  · rw [c9_input_compact_length]; omega
  · have hmax : truncate_preserving_early_entries
        (.obj [("content", .arr (List.replicate 1300 c9Item))]) MAX_TOOL_OUTPUT_LENGTH
        = some (.obj [("content", .arr (List.replicate 1300 c9Item))]) := c9_trunc_eval
    rw [show c9Input = JValue.obj [("content", JValue.arr (List.replicate 1300 c9Item))]
          from rfl]
    simp only [call_tool]
    rw [hmax]
    simp only [if_true]
  · rw [c9_input_indent_length]; omega

end NLWeb
